import Mathlib

/-!
Verification of the resource-reconciliation engine of RobotResults2RQM
(robot2rqm.py and CRQM.py): shallow embedding of the result-status mapping,
URL construction, execution-result state mapping, `createResource` response
classification, cached build/configuration creation, the per-test TCER gate,
the run-level accumulator lists, and the suite traversal.
-/

/-! ## Result status mapping (robot2rqm.py, DRESULT_MAPPING, lines 43-47)

`DRESULT_MAPPING` is a Python dict with exactly the three keys below;
`process_test` looks the test status up with `DRESULT_MAPPING[test.status]`
(line 367) and a missing key raises `KeyError`, which is caught: the test is
abandoned with a logged error (lines 368-370).  `none` models the `KeyError`
(abandoned-test) outcome. -/
def DRESULT_MAPPING (status : String) : Option String :=
  if status == "PASS" then some "Passed"
  else if status == "FAIL" then some "Failed"
  else if status == "UNKNOWN" then some "Inconclusive"
  else none

/-! ## integrationURL (CRQM.py, lines 288-316) -/

/-- Python `str.isdigit()` restricted to ASCII content: true iff the string is
non-empty and every character is a decimal digit. -/
def pyIsDigit (s : String) : Bool :=
  s.length > 0 && s.data.all Char.isDigit

/-- The collection URL for a resource type: the value `integrationURL` builds
before any id is appended (CRQM.py lines 307-308). -/
def collectionURL (host projectID resourceType : String) : String :=
  host ++ "/qm/service/com.ibm.rqm.integration.service.IIntegrationService/resources/"
       ++ projectID ++ "/" ++ resourceType

/-- CRQM.py `CRQMClient.integrationURL` (lines 288-316).  `id = none` models
Python `id=None`.  For a present id, a non-digit id without
`forceinternalID` is appended literally, otherwise the URN form is used. -/
def integrationURL (host projectID resourceType : String) (id : Option String)
    (forceinternalID : Bool) : String :=
  match id with
  | none => collectionURL host projectID resourceType
  | some i =>
    if (!pyIsDigit i) && (!forceinternalID) then
      collectionURL host projectID resourceType ++ "/" ++ i
    else
      collectionURL host projectID resourceType ++ "/urn:com.ibm.rqm:" ++ resourceType ++ ":" ++ i

/-! ## Execution result state node (CRQM.py, RESULT_STATES lines 87-89 and
`createExecutionResultTemplate` lines 745-751) -/

def RESULT_STATES : List String :=
  ["paused", "inprogress", "notrun", "passed", "incomplete",
   "inconclusive", "part_blocked", "failed", "error",
   "blocked", "perm_failed", "deferred"]

def prefState : String := "com.ibm.rqm.execution.common.state."

/-- The text of the `ns5:state` node written by
`createExecutionResultTemplate`: the default `prefState ++ "inconclusive"` is
overwritten with `prefState ++ resultState.lower()` exactly when the
lower-cased state is one of `RESULT_STATES` (CRQM.py lines 748-751). -/
def executionResultState (resultState : String) : String :=
  if RESULT_STATES.contains resultState.toLower then
    prefState ++ resultState.toLower
  else
    prefState ++ "inconclusive"

/-! ## Python `str.replace` (used at CRQM.py line 1028) -/

/-- One left-to-right, non-overlapping pass of Python `str.replace` over a
character list, for a non-empty pattern (an empty pattern never matches
here). -/
def replChars (pat rep : List Char) : List Char → List Char
  | [] => []
  | c :: rest =>
    if h : pat.isPrefixOf (c :: rest) = true ∧ pat ≠ [] then
      rep ++ replChars pat rep ((c :: rest).drop pat.length)
    else
      c :: replChars pat rep rest
termination_by l => l.length
decreasing_by
  · have hlen : 0 < pat.length := List.length_pos.mpr h.2
    simp only [List.length_drop, List.length_cons]
    omega
  · simp

/-- Python `s.replace(old, new)` for a non-empty `old`. -/
def pyReplace (s old new : String) : String :=
  ⟨replChars old.data new.data s.data⟩

/-- `pat` occurs as a contiguous sublist of the argument. -/
def occursIn (pat : List Char) : List Char → Bool
  | [] => pat.isEmpty
  | c :: rest => pat.isPrefixOf (c :: rest) || occursIn pat rest

/-! ## HTTP response model and `createResource` (CRQM.py, lines 990-1055)

The HTTP layer is modelled by explicit data: the response of the POST issued
by `createResource` is an input, and the two XML-extraction helpers
(`webIDfromResponse`, the `ns2:webId` lookup inside `webIDfromGeneratedID`)
and the GET performed by `webIDfromGeneratedID` are oracle functions, since
they depend on server-provided XML bodies.  A `Content-Location` header that
is absent is modelled as the empty string. -/

structure HttpResponse where
  status_code : Nat
  text : String
  contentLocation : String
  reason : String

/-- A Python value that is either a string or an int: the `status_code` field
of the result envelope holds `''` initially, the integer HTTP status after a
live POST, and the string `"303"` in the cached branches of
`createBuildRecord` / `createConfiguration`. -/
inductive PyVal where
  | str (s : String)
  | int (n : Nat)
deriving DecidableEq

/-- The result envelope `{'success': ..., 'id': ..., 'message': ...,
'status_code': ...}` returned by `createResource`, `createBuildRecord` and
`createConfiguration`.  `id = none` models Python `None`. -/
structure ReturnObj where
  success : Bool
  id : Option String
  message : String
  status_code : PyVal
deriving DecidableEq

/-- CRQM.py lines 361-372: resource types whose GET response carries an
`ns2:webId` node. -/
def lSupportedResources : List String :=
  ["attachment", "executionresult", "executionscript", "executionworkitem",
   "keyword", "remotescript", "suiteexecutionrecord", "testcase", "testplan",
   "testscript", "testsuite", "testsuitelog"]

/-- CRQM.py `CRQMClient.webIDfromGeneratedID` (lines 343-383).  `getRes`
models `self.getResourceByID`; `findWebId` models the `ns2:webId` node-text
lookup in the fetched XML.  `.error` models the raised exception. -/
def webIDfromGeneratedID (getRes : String → String → HttpResponse)
    (findWebId : String → Option String)
    (resourceType generateID : String) : Except String String :=
  if lSupportedResources.contains resourceType then
    let resResource := getRes resourceType generateID
    if resResource.status_code == 200 then
      match findWebId resResource.text with
      | some t => .ok t
      | none => .ok generateID
    else .error "Cannot get web ID of generated testcase!"
  else .ok generateID

/-- CRQM.py `CRQMClient.createResource` (lines 990-1055).  `csrf` is the
`X-Jazz-CSRF-Prevent` header, `res` the response of the POST, `webid` models
`self.webIDfromResponse` (text, tagID) and may fail like the Python helper
raises.  The second component records whether a POST was issued. -/
def createResource (csrf host projectID : String)
    (webid : String → String → Except String String)
    (getRes : String → String → HttpResponse)
    (findWebId : String → Option String)
    (resourceType : String)
    (res : HttpResponse) : ReturnObj × Bool :=
  let returnObj : ReturnObj := ⟨false, none, "", .str ""⟩
  if csrf == "" then
    ({ returnObj with message := "JSESSIONID is missing for RQM resource's creation" }, false)
  else
    let returnObj := { returnObj with status_code := .int res.status_code }
    if res.status_code != 201 then
      let returnObj := { returnObj with message := res.reason }
      if res.status_code == 303 then
        let sRemove := integrationURL host projectID resourceType (some "") true
        ({ returnObj with id := some (pyReplace res.contentLocation sRemove "") }, true)
      else if res.status_code == 200 && res.text != "" then
        match webid res.text "ns2:webId" with
        | .ok i => ({ returnObj with id := some i }, true)
        | .error e =>
          ({ returnObj with
             message := "Extract ID information from response failed. Reason: " ++ e }, true)
      else (returnObj, true)
    else
      if res.text != "" then
        match webid res.text "rqm:resultId" with
        | .ok i => ({ returnObj with id := some i, success := true }, true)
        | .error e =>
          ({ returnObj with
             message := "Extract ID information from response failed. Reason: " ++ e }, true)
      else if res.contentLocation != "" then
        match webIDfromGeneratedID getRes findWebId resourceType res.contentLocation with
        | .ok w => ({ returnObj with id := some w, success := true }, true)
        | .error e =>
          ({ returnObj with
              id := some res.contentLocation
              message := "Extract ID information from response failed. Reason: " ++ e }, true)
      else ({ returnObj with success := true }, true)

/-! ## Cached creation: `createBuildRecord` / `createConfiguration`
(CRQM.py, lines 1057-1128)

`dBuildVersion` / `dConfiguation` are Python dicts mapping build
(configuration) ID to name; a dict is modelled as an insertion-ordered
association list, assignment `d[k] = v` by `dictInsert` (update in place if
the key is present, else append at the end), and
`list(d.keys())[list(d.values()).index(name)]` by `cachedLookup` (key of the
first pair whose value is `name`).  The key type is `Option String` because
the stored key is `returnObj['id']`, which may be `None`.  The result of
`self.createResource('buildrecord', template)` is an input (`postResult`);
the third component of the result records whether that call was made. -/

def dictInsert (d : List (Option String × String)) (k : Option String) (v : String) :
    List (Option String × String) :=
  match d with
  | [] => [(k, v)]
  | p :: rest => if p.1 == k then (k, v) :: rest else p :: dictInsert rest k v

def cachedLookup (d : List (Option String × String)) (name : String) : Option String :=
  (d.find? (fun p => p.2 == name)).bind (fun p => p.1)

/-- CRQM.py `CRQMClient.createBuildRecord` (lines 1057-1091). -/
def createBuildRecord (d : List (Option String × String)) (postResult : ReturnObj)
    (sBuildSWVersion : String) (forceCreate : Bool) :
    ReturnObj × List (Option String × String) × Bool :=
  if !(d.any (fun p => p.2 == sBuildSWVersion)) || forceCreate then
    let returnObj := postResult
    if returnObj.success then
      (returnObj, dictInsert d returnObj.id sBuildSWVersion, true)
    else
      (returnObj, d, true)
  else
    ({ success := false
       id := cachedLookup d sBuildSWVersion
       message := "Build record '" ++ sBuildSWVersion ++ "' is already existing."
       status_code := .str "303" }, d, false)

/-- CRQM.py `CRQMClient.createConfiguration` (lines 1093-1128). -/
def createConfiguration (d : List (Option String × String)) (postResult : ReturnObj)
    (sConfigurationName : String) (forceCreate : Bool) :
    ReturnObj × List (Option String × String) × Bool :=
  if !(d.any (fun p => p.2 == sConfigurationName)) || forceCreate then
    let returnObj := postResult
    if returnObj.success then
      (returnObj, dictInsert d returnObj.id sConfigurationName, true)
    else
      (returnObj, d, true)
  else
    ({ success := false
       id := cachedLookup d sConfigurationName
       message := "Test environment '" ++ sConfigurationName ++ "' is already existing."
       status_code := .str "303" }, d, false)

/-! ## The TCER gate of `process_test` (robot2rqm.py, lines 436-445) -/

/-- Python `==` between the envelope's `status_code` (a string or an int) and
an int literal. -/
def pyEqInt (v : PyVal) (n : Nat) : Bool :=
  match v with
  | .int m => m == n
  | .str _ => false

/-- Python `res['id'] != ''`: `None != ''` is `True`, a string is compared
for inequality. -/
def pyIdNeEmpty (id : Option String) : Bool :=
  match id with
  | none => true
  | some s => s != ""

/-- robot2rqm.py lines 438-445: after the TCER creation call, `process_test`
continues to execution-result creation iff `res['success']`, or
`(res['status_code'] == 303 or res['status_code'] == 200) and
res['id'] != ''`; otherwise the test is abandoned with a logged error. -/
def tcerGate (res : ReturnObj) : Bool :=
  res.success || ((pyEqInt res.status_code 303 || pyEqInt res.status_code 200)
                  && pyIdNeEmpty res.id)

/-- The claim's reading of "an ID was extracted": the envelope carries a
non-empty ID. -/
def idExtracted (res : ReturnObj) : Bool :=
  match res.id with
  | none => false
  | some s => s != ""

/-! ## Run-level accumulator lists (robot2rqm.py, lines 447-479;
CRQM.py `__init__`, lines 129-136)

Each of `lTestcaseIDs`, `lTCERIDs`, `lTCResultIDs` starts empty and every
append is guarded: `if x not in l: l.append(x)`.  Elements are `Option
String` because a stored `res['id']` may be `None`. -/
def appendUnique (l : List (Option String)) (x : Option String) : List (Option String) :=
  if x ∈ l then l else l ++ [x]

/-! ## Suite traversal (robot2rqm.py `process_suite`, lines 296-325;
robotlog2rqm.py `process_suite`, lines 397-434)

A suite node carries its direct tests (identified by name) and its child
suites.  `process_suite` returns the ordered trace of tests passed to
`process_test`: both variants recurse into the children when the child list
is non-empty and only otherwise process the node's own tests. -/

inductive Suite where
  | node (name : String) (tests : List String) (suites : List Suite)

def Suite.testsOf : Suite → List String
  | .node _ ts _ => ts

/-- The ordered trace of tests handed to `process_test` by `process_suite`. -/
def process_suite : Suite → List String
  | .node _ ts subs =>
    if subs.length > 0 then
      (subs.attach.map (fun x => process_suite x.1)).flatten
    else ts
termination_by s => sizeOf s
decreasing_by
  have := List.sizeOf_lt_of_mem x.2
  simp only [Suite.node.sizeOf_spec]
  omega

/-- Stated from the claim, for comparison: the leaf suites of the tree, in
depth-first order. -/
def leafSuites : Suite → List Suite
  | .node n ts subs =>
    if subs.length > 0 then
      (subs.attach.map (fun x => leafSuites x.1)).flatten
    else [.node n ts subs]
termination_by s => sizeOf s
decreasing_by
  have := List.sizeOf_lt_of_mem x.2
  simp only [Suite.node.sizeOf_spec]
  omega

/-! ## Helper lemmas -/

theorem replChars_no_occur (pat : List Char) (tail : List Char)
    (h : occursIn pat tail = false) : replChars pat [] tail = tail := by
  induction tail with
  | nil => simp [replChars]
  | cons c rest ih =>
    simp only [occursIn, Bool.or_eq_false_iff] at h
    rw [replChars, dif_neg (by simp [h.1]), ih h.2]

theorem replChars_strip (pat tail : List Char) (hpat : pat ≠ [])
    (h : occursIn pat tail = false) :
    replChars pat [] (pat ++ tail) = tail := by
  obtain ⟨p, ps, rfl⟩ := List.exists_cons_of_ne_nil hpat
  have hpre : (p :: ps).isPrefixOf ((p :: ps) ++ tail) = true :=
    List.isPrefixOf_iff_prefix.mpr (List.prefix_append _ _)
  rw [List.cons_append, replChars,
      dif_pos ⟨by rw [← List.cons_append]; exact hpre, by simp⟩]
  rw [List.nil_append]
  have hdrop : (p :: (ps ++ tail)).drop (p :: ps).length = tail := by
    rw [List.length_cons, List.drop_succ_cons, List.drop_left]
  rw [hdrop]
  exact replChars_no_occur _ _ h

/-- Python `s.replace(old, new)` with `s = old ++ tail` and no further
occurrence of `old` strips exactly the prefix. -/
theorem pyReplace_strip (old tail : String) (hold : old.data ≠ [])
    (h : occursIn old.data tail.data = false) :
    pyReplace (old ++ tail) old "" = tail := by
  unfold pyReplace
  apply String.ext
  rw [String.data_append]
  exact replChars_strip _ _ hold h

theorem flatMapFlatten {α β : Type} (L : List (List α)) (f : α → List β) :
    L.flatten.flatMap f = (L.map (fun l => l.flatMap f)).flatten := by
  induction L with
  | nil => simp
  | cons l rest ih => simp [ih]

theorem dictInsert_any_value (d : List (Option String × String))
    (k : Option String) (v : String) :
    (dictInsert d k v).any (fun p => p.2 == v) = true := by
  induction d with
  | nil => simp [dictInsert]
  | cons p rest ih =>
    rw [dictInsert]
    split
    · simp
    · simp [List.any_cons, ih]

theorem cachedLookup_dictInsert (d : List (Option String × String))
    (k : Option String) (v : String)
    (h : d.any (fun p => p.2 == v) = false) :
    cachedLookup (dictInsert d k v) v = k := by
  induction d with
  | nil => simp [dictInsert, cachedLookup, List.find?]
  | cons p rest ih =>
    simp only [List.any_cons, Bool.or_eq_false_iff] at h
    rw [dictInsert]
    split
    · simp [cachedLookup, List.find?]
    · rw [cachedLookup, List.find?]
      rw [h.1]
      exact ih h.2

theorem appendUnique_nodup (l : List (Option String)) (x : Option String)
    (h : l.Nodup) : (appendUnique l x).Nodup := by
  unfold appendUnique
  split
  · exact h
  · next hx => simp [List.nodup_append, h, hx]

theorem foldl_appendUnique_nodup (xs : List (Option String)) :
    ∀ l : List (Option String), l.Nodup → (xs.foldl appendUnique l).Nodup := by
  induction xs with
  | nil => intro l h; exact h
  | cons x rest ih =>
    intro l h
    exact ih _ (appendUnique_nodup l x h)

/-! ## Theorems C1-C3 -/

/-- C1 (counterexample): the claim says every status other than PASS/FAIL maps
to 'Inconclusive'; but for the Robot Framework status "SKIP" the dict lookup
raises KeyError and the test is abandoned (`none`), it is not mapped to
'Inconclusive'. -/
theorem c1_skip_not_inconclusive :
    DRESULT_MAPPING "SKIP" ≠ some "Inconclusive" := by decide

/-- C1 (amended): `process_test` maps status 'PASS' to 'Passed', 'FAIL' to
'Failed' and 'UNKNOWN' to 'Inconclusive'; any other status string is not
mapped at all: the lookup raises KeyError and the test is abandoned with a
logged error. -/
theorem c1_result_mapping (s : String) :
    DRESULT_MAPPING "PASS" = some "Passed" ∧
    DRESULT_MAPPING "FAIL" = some "Failed" ∧
    DRESULT_MAPPING "UNKNOWN" = some "Inconclusive" ∧
    (s ≠ "PASS" → s ≠ "FAIL" → s ≠ "UNKNOWN" → DRESULT_MAPPING s = none) := by
  refine ⟨by decide, by decide, by decide, ?_⟩
  intro h1 h2 h3
  simp only [DRESULT_MAPPING, beq_iff_eq, h1, h2, h3, if_false]

theorem c1_result_mapping_witness : DRESULT_MAPPING "SKIP" = none :=
  (c1_result_mapping "SKIP").2.2.2 (by decide) (by decide) (by decide)

/-- C2: `integrationURL` returns the URN form for a purely-numeric id (with or
without `forceinternalID`), the literal-append form for a non-numeric id when
`forceinternalID` is not set, and the bare collection URL when the id is
`none`. -/
theorem c2_integrationURL (host pid rt i : String) (force : Bool) :
    (pyIsDigit i = true →
      integrationURL host pid rt (some i) force =
        collectionURL host pid rt ++ "/urn:com.ibm.rqm:" ++ rt ++ ":" ++ i) ∧
    (pyIsDigit i = false →
      integrationURL host pid rt (some i) false =
        collectionURL host pid rt ++ "/" ++ i) ∧
    integrationURL host pid rt none force = collectionURL host pid rt := by
  refine ⟨fun h => ?_, fun h => ?_, rfl⟩
  · simp [integrationURL, h]
  · simp [integrationURL, h]

theorem c2_integrationURL_witness :
    integrationURL "h" "p" "testplan" (some "123") false =
      collectionURL "h" "p" "testplan" ++ "/urn:com.ibm.rqm:" ++ "testplan" ++ ":" ++ "123" ∧
    integrationURL "h" "p" "testplan" (some "extern7") false =
      collectionURL "h" "p" "testplan" ++ "/" ++ "extern7" :=
  ⟨(c2_integrationURL "h" "p" "testplan" "123" false).1 (by decide),
   (c2_integrationURL "h" "p" "testplan" "extern7" false).2.1 (by decide)⟩

/-- C3: the state node of the synthesized execution-result document equals the
fixed prefix concatenated with the lower-cased state when that lower-cased
state is one of the twelve recognized states, and the prefix concatenated
with 'inconclusive' otherwise; the computation is total (no error is
raised). -/
theorem c3_execution_result_state (resultState : String) :
    executionResultState resultState =
      prefState ++ (if RESULT_STATES.contains resultState.toLower then
                      resultState.toLower else "inconclusive") := by
  unfold executionResultState
  split <;> simp_all

/-- C4: for a POST response with status 303, `createResource` returns as id
the `Content-Location` header with the force-internal URN collection prefix
(`integrationURL` of the resource type at id `''` with `forceinternalID`,
which ends in `urn:com.ibm.rqm:<resourceType>:`) removed, i.e. the redirect
location's tail segment; and for a response with status 201, an empty body
and a non-empty `Content-Location`, the returned id is the value produced by
passing the `Content-Location` through `webIDfromGeneratedID` and the
success flag is true. -/
theorem c4_createResource_paths (csrf host pid rt : String)
    (webid : String → String → Except String String)
    (getRes : String → String → HttpResponse)
    (findWebId : String → Option String)
    (res : HttpResponse) (tail w : String) :
    (csrf ≠ "" → res.status_code = 303 →
      res.contentLocation = integrationURL host pid rt (some "") true ++ tail →
      occursIn (integrationURL host pid rt (some "") true).data tail.data = false →
      (createResource csrf host pid webid getRes findWebId rt res).1.id = some tail) ∧
    (csrf ≠ "" → res.status_code = 201 → res.text = "" → res.contentLocation ≠ "" →
      webIDfromGeneratedID getRes findWebId rt res.contentLocation = Except.ok w →
      (createResource csrf host pid webid getRes findWebId rt res).1.id = some w ∧
      (createResource csrf host pid webid getRes findWebId rt res).1.success = true) := by
  constructor
  · intro hcsrf h303 hcl hocc
    have hc : (csrf == "") = false := beq_eq_false_iff_ne.mpr hcsrf
    have hurn : integrationURL host pid rt (some "") true =
        collectionURL host pid rt ++ "/urn:com.ibm.rqm:" ++ rt ++ ":" ++ "" := by
      simp [integrationURL, pyIsDigit]
    have hne : (integrationURL host pid rt (some "") true).data ≠ [] := by
      rw [hurn]
      intro hcontra
      have hlen := congrArg List.length hcontra
      simp only [String.data_append, List.length_append, List.length_nil,
                 List.length_cons] at hlen
      omega
    simp only [createResource, hc, h303]
    norm_num
    rw [hcl]
    exact pyReplace_strip _ _ hne hocc
  · intro hcsrf h201 htext hcl hok
    have hc : (csrf == "") = false := beq_eq_false_iff_ne.mpr hcsrf
    simp only [createResource, hc, h201, htext]
    norm_num
    rw [hok]
    simp [hcl]

theorem c4_createResource_paths_witness :
    (createResource "J" "h" "p" (fun _ _ => Except.error "e")
        (fun _ _ => ⟨0, "", "", ""⟩) (fun _ => none) "buildrecord"
        ⟨303, "", integrationURL "h" "p" "buildrecord" (some "") true ++ "42", "See Other"⟩).1.id
      = some "42" ∧
    (createResource "J" "h" "p" (fun _ _ => Except.error "e")
        (fun _ _ => ⟨0, "", "", ""⟩) (fun _ => none) "buildrecord"
        ⟨201, "", "slug_9", "Created"⟩).1.id = some "slug_9" ∧
    (createResource "J" "h" "p" (fun _ _ => Except.error "e")
        (fun _ _ => ⟨0, "", "", ""⟩) (fun _ => none) "buildrecord"
        ⟨201, "", "slug_9", "Created"⟩).1.success = true := by
  refine ⟨?_, ?_⟩
  · exact (c4_createResource_paths "J" "h" "p" "buildrecord" (fun _ _ => Except.error "e")
      (fun _ _ => ⟨0, "", "", ""⟩) (fun _ => none)
      ⟨303, "", integrationURL "h" "p" "buildrecord" (some "") true ++ "42", "See Other"⟩
      "42" "").1 (by decide) rfl rfl (by decide)
  · exact (c4_createResource_paths "J" "h" "p" "buildrecord" (fun _ _ => Except.error "e")
      (fun _ _ => ⟨0, "", "", ""⟩) (fun _ => none)
      ⟨201, "", "slug_9", "Created"⟩ "" "slug_9").2 (by decide) rfl rfl (by decide) rfl

/-- C5 (counterexample): the cached branch of `createBuildRecord` does not
produce the same field values as `createResource` on a live HTTP 303: at a
concrete cached state and a concrete 303 response, the cached envelope's
`status_code` is the string `"303"` while the live envelope's is the integer
`303`, and the two values are different. -/
theorem c5_counterexample :
    (createBuildRecord [(some "42", "v1.0")] ⟨false, none, "", .str ""⟩ "v1.0" false).1.status_code
      = PyVal.str "303" ∧
    (createResource "J" "h" "p" (fun _ _ => Except.error "e")
        (fun _ _ => ⟨0, "", "", ""⟩) (fun _ => none) "buildrecord"
        ⟨303, "", "cl", "See Other"⟩).1.status_code = PyVal.int 303 ∧
    (createBuildRecord [(some "42", "v1.0")] ⟨false, none, "", .str ""⟩ "v1.0" false).1.status_code
      ≠ (createResource "J" "h" "p" (fun _ _ => Except.error "e")
        (fun _ _ => ⟨0, "", "", ""⟩) (fun _ => none) "buildrecord"
        ⟨303, "", "cl", "See Other"⟩).1.status_code := by
  have h1 : (createBuildRecord [(some "42", "v1.0")] ⟨false, none, "", .str ""⟩
      "v1.0" false).1.status_code = PyVal.str "303" := rfl
  have h2 : (createResource "J" "h" "p" (fun _ _ => Except.error "e")
      (fun _ _ => ⟨0, "", "", ""⟩) (fun _ => none) "buildrecord"
      ⟨303, "", "cl", "See Other"⟩).1.status_code = PyVal.int 303 := rfl
  refine ⟨h1, h2, ?_⟩
  rw [h1, h2]
  decide

/-- C5 (amended): for a cached name (and `forceCreate` not set) the
`createBuildRecord` envelope has the same four-field shape as a live-303
envelope, with success false, the cached id, and no HTTP request made; but
the `status_code` values differ: the cached branch stores the string `"303"`
while `createResource` on a live 303 response stores the integer `303`. -/
theorem c5_cached_vs_live (d : List (Option String × String)) (name : String)
    (pr : ReturnObj) (csrf host pid : String)
    (webid : String → String → Except String String)
    (getRes : String → String → HttpResponse)
    (findWebId : String → Option String) (res : HttpResponse)
    (hname : d.any (fun p => p.2 == name) = true)
    (hcsrf : csrf ≠ "") (h303 : res.status_code = 303) :
    (createBuildRecord d pr name false).1.success = false ∧
    (createBuildRecord d pr name false).1.id = cachedLookup d name ∧
    (createBuildRecord d pr name false).1.status_code = PyVal.str "303" ∧
    (createBuildRecord d pr name false).2.2 = false ∧
    (createResource csrf host pid webid getRes findWebId "buildrecord" res).1.status_code
      = PyVal.int 303 ∧
    PyVal.str "303" ≠ PyVal.int 303 := by
  have hc : (csrf == "") = false := beq_eq_false_iff_ne.mpr hcsrf
  refine ⟨?_, ?_, ?_, ?_, ?_, by decide⟩ <;>
    simp [createBuildRecord, createResource, hname, hc, h303]

/-- C5 amended claim at concrete inputs. -/
theorem c5_cached_vs_live_witness :
    (createBuildRecord [(some "42", "v1.0")] ⟨false, none, "", .str ""⟩ "v1.0" false).1.success = false ∧
    (createBuildRecord [(some "42", "v1.0")] ⟨false, none, "", .str ""⟩ "v1.0" false).1.id
      = cachedLookup [(some "42", "v1.0")] "v1.0" ∧
    (createBuildRecord [(some "42", "v1.0")] ⟨false, none, "", .str ""⟩ "v1.0" false).1.status_code
      = PyVal.str "303" ∧
    (createBuildRecord [(some "42", "v1.0")] ⟨false, none, "", .str ""⟩ "v1.0" false).2.2 = false ∧
    (createResource "J" "h" "p" (fun _ _ => Except.error "e")
        (fun _ _ => ⟨0, "", "", ""⟩) (fun _ => none) "buildrecord"
        ⟨303, "", "cl", "See Other"⟩).1.status_code = PyVal.int 303 ∧
    PyVal.str "303" ≠ PyVal.int 303 :=
  c5_cached_vs_live [(some "42", "v1.0")] "v1.0" ⟨false, none, "", .str ""⟩
    "J" "h" "p" (fun _ _ => Except.error "e") (fun _ _ => ⟨0, "", "", ""⟩)
    (fun _ => none) ⟨303, "", "cl", "See Other"⟩ (by decide) (by decide) rfl

/-- C6 (counterexample): the engine's TCER gate lets a test continue although
no ID was extracted: the envelope `createResource` returns for a status-200
response with empty body has `id = None`, yet the gate is passed (Python
`None != ''` is `True`), so the claim's "an ID was extracted" reading is
wrong. -/
theorem c6_counterexample :
    tcerGate ⟨false, none, "OK", .int 200⟩ = true ∧
    idExtracted ⟨false, none, "OK", .int 200⟩ = false ∧
    (createResource "J" "h" "p" (fun _ _ => Except.error "e")
        (fun _ _ => ⟨0, "", "", ""⟩) (fun _ => none) "executionworkitem"
        ⟨200, "", "", "OK"⟩).1 = ⟨false, none, "OK", .int 200⟩ :=
  ⟨rfl, rfl, rfl⟩

/-- C6 (amended): after the TCER creation call, `process_test` continues to
execution-result creation exactly when the envelope's success flag is true,
or its status code is the integer 303 or 200 and its id field is not the
empty string — a missing id (`None`) also passes this test; in every other
case the current test is abandoned. -/
theorem c6_gate_iff (res : ReturnObj) :
    tcerGate res = true ↔
      (res.success = true ∨
        ((res.status_code = PyVal.int 303 ∨ res.status_code = PyVal.int 200) ∧
          res.id ≠ some "")) := by
  obtain ⟨s, i, m, c⟩ := res
  simp only [tcerGate, Bool.or_eq_true, Bool.and_eq_true]
  cases c with
  | str v => simp [pyEqInt]
  | int n =>
    cases i with
    | none => simp [pyEqInt, pyIdNeEmpty, beq_iff_eq]
    | some x => simp [pyEqInt, pyIdNeEmpty, bne_iff_ne, beq_iff_eq]

/-- C7: calling `createBuildRecord` (resp. `createConfiguration`) twice with
the same name and `forceCreate` not set, where the first (and only)
`createResource` call succeeds with an extracted id, makes the network
creation call only on the first invocation; the second invocation makes none
and returns the cached id (non-null) with the string status `"303"` and a
false success flag. -/
theorem c7_single_creation (d : List (Option String × String)) (name i : String)
    (pr1 pr2 : ReturnObj)
    (hname : d.any (fun p => p.2 == name) = false)
    (hsucc : pr1.success = true) (hid : pr1.id = some i) :
    (createBuildRecord d pr1 name false).2.2 = true ∧
    (createBuildRecord (createBuildRecord d pr1 name false).2.1 pr2 name false).2.2 = false ∧
    (createBuildRecord (createBuildRecord d pr1 name false).2.1 pr2 name false).1.id = some i ∧
    (createBuildRecord (createBuildRecord d pr1 name false).2.1 pr2 name false).1.status_code
      = PyVal.str "303" ∧
    (createBuildRecord (createBuildRecord d pr1 name false).2.1 pr2 name false).1.success = false ∧
    (createConfiguration d pr1 name false).2.2 = true ∧
    (createConfiguration (createConfiguration d pr1 name false).2.1 pr2 name false).2.2 = false ∧
    (createConfiguration (createConfiguration d pr1 name false).2.1 pr2 name false).1.id = some i ∧
    (createConfiguration (createConfiguration d pr1 name false).2.1 pr2 name false).1.status_code
      = PyVal.str "303" ∧
    (createConfiguration (createConfiguration d pr1 name false).2.1 pr2 name false).1.success
      = false := by
  have h1 : createBuildRecord d pr1 name false = (pr1, dictInsert d (some i) name, true) := by
    simp [createBuildRecord, hname, hsucc, hid]
  have h1c : createConfiguration d pr1 name false = (pr1, dictInsert d (some i) name, true) := by
    simp [createConfiguration, hname, hsucc, hid]
  have h2any := dictInsert_any_value d (some i) name
  have h2look := cachedLookup_dictInsert d (some i) name hname
  rw [h1, h1c]
  refine ⟨rfl, ?_, ?_, ?_, ?_, rfl, ?_, ?_, ?_, ?_⟩ <;>
    simp [createBuildRecord, createConfiguration, h2any, h2look]

/-- C7 at concrete inputs. -/
theorem c7_single_creation_witness :
    (createBuildRecord [] ⟨true, some "42", "", .int 201⟩ "v1.0" false).2.2 = true ∧
    (createBuildRecord (createBuildRecord [] ⟨true, some "42", "", .int 201⟩ "v1.0" false).2.1
        ⟨false, none, "", .str ""⟩ "v1.0" false).2.2 = false ∧
    (createBuildRecord (createBuildRecord [] ⟨true, some "42", "", .int 201⟩ "v1.0" false).2.1
        ⟨false, none, "", .str ""⟩ "v1.0" false).1.id = some "42" ∧
    (createBuildRecord (createBuildRecord [] ⟨true, some "42", "", .int 201⟩ "v1.0" false).2.1
        ⟨false, none, "", .str ""⟩ "v1.0" false).1.status_code = PyVal.str "303" ∧
    (createBuildRecord (createBuildRecord [] ⟨true, some "42", "", .int 201⟩ "v1.0" false).2.1
        ⟨false, none, "", .str ""⟩ "v1.0" false).1.success = false ∧
    (createConfiguration [] ⟨true, some "42", "", .int 201⟩ "v1.0" false).2.2 = true ∧
    (createConfiguration (createConfiguration [] ⟨true, some "42", "", .int 201⟩ "v1.0" false).2.1
        ⟨false, none, "", .str ""⟩ "v1.0" false).2.2 = false ∧
    (createConfiguration (createConfiguration [] ⟨true, some "42", "", .int 201⟩ "v1.0" false).2.1
        ⟨false, none, "", .str ""⟩ "v1.0" false).1.id = some "42" ∧
    (createConfiguration (createConfiguration [] ⟨true, some "42", "", .int 201⟩ "v1.0" false).2.1
        ⟨false, none, "", .str ""⟩ "v1.0" false).1.status_code = PyVal.str "303" ∧
    (createConfiguration (createConfiguration [] ⟨true, some "42", "", .int 201⟩ "v1.0" false).2.1
        ⟨false, none, "", .str ""⟩ "v1.0" false).1.success = false :=
  c7_single_creation [] "v1.0" "42" ⟨true, some "42", "", .int 201⟩
    ⟨false, none, "", .str ""⟩ rfl rfl rfl

/-- C8: when the `X-Jazz-CSRF-Prevent` header is the empty string,
`createResource` makes no HTTP request and immediately returns an envelope
with success false, id `None`, the explicit JSESSIONID message, and an empty
string status code. -/
theorem c8_missing_csrf (host pid rt : String)
    (webid : String → String → Except String String)
    (getRes : String → String → HttpResponse)
    (findWebId : String → Option String) (res : HttpResponse) :
    createResource "" host pid webid getRes findWebId rt res =
      (⟨false, none, "JSESSIONID is missing for RQM resource's creation", .str ""⟩, false) :=
  rfl

/-- C9: every append to the run-level accumulator lists `lTestcaseIDs`,
`lTCERIDs`, `lTCResultIDs` is guarded by a membership check, so after
processing any sequence of appended ids starting from the empty lists of
`__init__` the list has no duplicate entries, and appending an id already
present leaves the list unchanged (appending the same id twice stores it
once). -/
theorem c9_accumulators_nodup :
    (∀ xs : List (Option String), (xs.foldl appendUnique []).Nodup) ∧
    (∀ (l : List (Option String)) (x : Option String),
      appendUnique (appendUnique l x) x = appendUnique l x) := by
  constructor
  · intro xs
    exact foldl_appendUnique_nodup xs [] List.nodup_nil
  · intro l x
    by_cases hx : x ∈ l
    · simp [appendUnique, hx]
    · simp [appendUnique, hx]

/-- C10: `process_suite` hands to `process_test` exactly the tests of the
leaf suites, in depth-first order: a node with a non-empty child-suite list
never has its own direct tests processed. -/
theorem c10_leaf_only (s : Suite) :
    process_suite s = (leafSuites s).flatMap Suite.testsOf := by
  induction s using process_suite.induct with
  | case1 n ts subs hlen ih =>
    rw [process_suite, leafSuites, if_pos hlen, if_pos hlen]
    rw [flatMapFlatten, List.map_map]
    apply congrArg List.flatten
    apply List.map_congr_left
    intro x _
    exact ih x
  | case2 n ts subs hlen =>
    rw [process_suite, leafSuites, if_neg hlen, if_neg hlen]
    simp [Suite.testsOf]
